import Mathlib

/-!
Verification development for the NDN3 feed-forward network assembler
(`ffnetwork.py`).  The Python module builds multi-layer computation graphs:
it normalizes configuration dictionaries, resolves per-layer input/output
shapes (with special cases for convolutional, biconvolutional and temporal
layers), time-embeds inputs, derives side-network input dimensions from
upstream networks, resolves sampler-network inputs, and sums per-layer
regularization penalties.

This file shallowly embeds that logic: dictionaries become structures with
`Option` fields (`none` = key absent), Python exceptions become an `Err`
sum type threaded through `Except`, tensors become index functions
`Nat → Nat → Int`, and the in-place mutation of the caller's configuration
record is made observable by returning the post-state of the record and of
the `input_dims` argument alongside the constructed network.
-/

namespace NDN3

/-! ## Python-level error values raised by the module -/

inductive Err where
  | typeError (msg : String)
  | valueError (msg : String)
  | keyError
  | indexError
deriving DecidableEq, Repr

/-! ## Time embedding (`FFNetwork.time_embed`)

The Python code builds `m : (B, L, B)` with `m[:, lag, :] = np.eye(B, k=-lag)`,
contracts it against the input along the batch axis
(`tf.tensordot(tmat, inputs, axes=[2, 0])`), transposes to `(B, F, L)` and
reshapes row-major to `(B, F*L)`.  We model the input as an index function
`inputs b f : Int` and the output likewise; the entry of `np.eye(B, k=-lag)`
at `(b, bp)` is `1` iff `bp = b - lag`, i.e. `bp + lag = b`. -/

def tmat (b lag bp : Nat) : Int :=
  if bp + lag = b then 1 else 0

/-- Output index `j` decodes (row-major reshape of `(F, L)`) as feature
`j / L` and lag `j % L`; the value is the tensordot contraction of `tmat`
with the input over the batch axis `bp ∈ range B`. -/
def time_embed (B L : Nat) (inputs : Nat → Nat → Int) : Nat → Nat → Int :=
  fun b j =>
    Finset.sum (Finset.range B) (fun bp => tmat b (j % L) bp * inputs bp (j / L))

/-- The per-layer input transformation of `FFNetwork.build_graph`: the
network-level time embedding is applied only when the layer's
`time_expand` entry is positive; otherwise the input is passed unchanged. -/
def buildGraphInput (te B : Nat) (inputs : Nat → Nat → Int) : Nat → Nat → Int :=
  if te > 0 then time_embed B te inputs else inputs

theorem tmat_contract (B lag : Nat) (inputs : Nat → Nat → Int) (b f : Nat)
    (hb : b < B) :
    Finset.sum (Finset.range B) (fun bp => tmat b lag bp * inputs bp f) =
      if lag ≤ b then inputs (b - lag) f else 0 := by
  by_cases hle : lag ≤ b
  · rw [if_pos hle]
    have hmem : b - lag ∈ Finset.range B := by
      exact Finset.mem_range.mpr (lt_of_le_of_lt (Nat.sub_le b lag) hb)
    refine Finset.sum_eq_single_of_mem (b - lag) hmem ?_ |>.trans ?_
    · intro bp _ hne
      have : bp + lag ≠ b := by omega
      simp [tmat, this]
    · have : (b - lag) + lag = b := Nat.sub_add_cancel hle
      simp [tmat, this]
  · rw [if_neg hle]
    refine Finset.sum_eq_zero ?_
    intro bp _
    have : bp + lag ≠ b := by omega
    simp [tmat, this]

theorem time_embed_entry (B L : Nat) (inputs : Nat → Nat → Int) (b f l : Nat)
    (hb : b < B) (hl : l < L) :
    time_embed B L inputs b (f * L + l) =
      if l ≤ b then inputs (b - l) f else 0 := by
  have hL : 0 < L := Nat.pos_of_ne_zero (by omega)
  have hmod : (f * L + l) % L = l := by
    rw [Nat.add_comm, Nat.add_mul_mod_self_right]
    exact Nat.mod_eq_of_lt hl
  have hdiv : (f * L + l) / L = f := by
    rw [Nat.add_comm, Nat.add_mul_div_right _ _ hL, Nat.div_eq_of_lt hl]
    omega
  unfold time_embed
  rw [hmod, hdiv]
  exact tmat_contract B l inputs b f hb

/-! ## Convolutional filter-size derivation (`FFNetwork._define_network`)

For the `'conv'` and `'biconv'` branches: with an explicit filter width the
leading filter dimension is `layer_sizes[nn][0] * np.prod(layer_sizes[nn][3:])`
when the input-size list has more than 3 entries, else `layer_sizes[nn][0]`;
the third entry becomes the width only when `layer_sizes[nn][2] > 1`. -/

def convFilterSize (ls : List Nat) (w : Nat) : List Nat :=
  let dim0 := if ls.length > 3 then ls.getD 0 0 * (ls.drop 3).prod else ls.getD 0 0
  if ls.getD 2 0 > 1 then [dim0, w, w] else [dim0, w, 1]

/-- The `'convsep'` and `'convLNL'` branches: the leading filter dimension is
`layer_sizes[nn][0]` alone — trailing lag dimensions are NOT multiplied in. -/
def convsepFilterSize (ls : List Nat) (w : Nat) : List Nat :=
  if ls.getD 2 0 > 1 then [ls.getD 0 0, w, w] else [ls.getD 0 0, w, 1]

/-- The `'conv_xy'` branch: `[layer_sizes[nn][0], width, width]`, with no
check of the second spatial dimension. -/
def convxyFilterSize (ls : List Nat) (w : Nat) : List Nat :=
  [ls.getD 0 0, w, w]

theorem convFilterSize_eq (ls : List Nat) (w : Nat) :
    convFilterSize ls w =
      [ls.getD 0 0 * (ls.drop 3).prod, w, if ls.getD 2 0 > 1 then w else 1] := by
  unfold convFilterSize
  by_cases h3 : ls.length > 3
  · rw [if_pos h3]
    split <;> rfl
  · rw [if_neg h3]
    have hdrop : ls.drop 3 = [] := List.drop_eq_nil_of_le (by omega)
    rw [hdrop]
    simp only [List.prod_nil, Nat.mul_one]
    split <;> rfl

/-! ## Configuration model for `FFNetwork.__init__` / `_define_network`

A Python value that may be an int or a list of ints (used for `input_dims`
and for `layer_sizes` entries). -/

inductive Dims where
  | int (n : Nat)
  | list (l : List Nat)
deriving DecidableEq, Repr

/-- A parameter that may be a single (scalar) value or a per-layer list,
mirroring the Python `type(x) is not list` broadcast checks. -/
inductive SoL (α : Type) where
  | one (a : α)
  | many (l : List α)
deriving DecidableEq, Repr

/-- The closed set of layer-type tags dispatched on in `_define_network`;
`unknown` stands for any other string tag, and `gabor` appears only in the
`SideNetwork` convolutional-family list, not as a constructible layer. -/
inductive LayerType where
  | normal | sep | readout | add | mult | filter | spkNL | spike_history
  | conv | biconv | convsep | convLNL | conv_xy | conv_readout | hadi_readout
  | temporal | sp_temporal | grid_shift | grid_sample | gabor
  | unknown (tag : String)
deriving DecidableEq, Repr

/-- The caller's `params_dict`: `none` models an absent key. -/
structure ParamsDict where
  input_dims : Option Dims := none
  layer_sizes : Option (List Dims) := none
  layer_types : Option (List LayerType) := none
  activation_funcs : Option (SoL String) := none
  weights_initializers : Option (SoL String) := none
  biases_initializers : Option (SoL String) := none
  reg_initializers : Option (List (Option Int)) := none
  num_inh : Option (SoL Nat) := none
  pos_constraints : Option (SoL Bool) := none
  time_expand : Option (List Nat) := none
  log_activations : Option Bool := none
  normalize_weights : Option (List (Option Int)) := none
  conv_filter_widths : Option (List (Option Nat)) := none
  shift_spacing : Option (List Nat) := none
  dilation : Option (List Nat) := none
  xy_out : Option (List Nat) := none
deriving DecidableEq, Repr

/-- Per-layer parameters as read inside `_define_network`: the five
broadcastable fields have already been normalized to per-layer lists; the
remaining ones are read straight from the dictionary. -/
structure NetParams where
  acts : List String
  winits : List String
  binits : List String
  regs : List (Option Int)
  ninh : List Nat
  pcon : List Bool
  normalize_weights : Option (List (Option Int))
  conv_filter_widths : Option (List (Option Nat))
  shift_spacing : Option (List Nat)
  dilation : Option (List Nat)
  xy_out : Option (List Nat)
deriving DecidableEq, Repr

/-- Reading `params[key][nn]`: an absent key raises `KeyError`, an index
past the end raises `IndexError`. -/
def fetchO (o : Option (List α)) (nn : Nat) : Except Err α :=
  match o with
  | none => Except.error Err.keyError
  | some l =>
    match l[nn]? with
    | none => Except.error Err.indexError
    | some v => Except.ok v

/-- Reading `lst[nn]` from a list known to be present. -/
def fetchL (l : List α) (nn : Nat) : Except Err α :=
  match l[nn]? with
  | none => Except.error Err.indexError
  | some v => Except.ok v

/-- The scalar-broadcast pattern of `FFNetwork.__init__`: an absent key gets
the scalar default, a scalar is replicated to every layer, and a list must
have exactly `n` entries, else `ValueError(msg)`. -/
def broadcast (v : Option (SoL α)) (dflt : α) (n : Nat) (msg : String) :
    Except Err (List α) :=
  match v with
  | none => Except.ok (List.replicate n dflt)
  | some (SoL.one a) => Except.ok (List.replicate n a)
  | some (SoL.many l) =>
    if l.length = n then Except.ok l else Except.error (Err.valueError msg)

/-- `input_dims` normalization: an int `n` becomes `[1, n, 1]`; a list is
padded with trailing `1`s up to length 3. -/
def formatInputDims : Dims → List Nat
  | Dims.int n => [1, n, 1]
  | Dims.list l => l ++ List.replicate (3 - l.length) 1

/-- Post-state of the caller's `input_dims` object: the `while ... append(1)`
loop mutates a caller-supplied list in place; an int is merely rebound. -/
def padDims : Dims → Dims
  | Dims.int n => Dims.int n
  | Dims.list l => Dims.list (l ++ List.replicate (3 - l.length) 1)

/-- `input_dims` resolution: the argument wins; else the dictionary entry;
else `TypeError`. -/
def resolveDims (arg : Option Dims) (dict : Option Dims) : Except Err Dims :=
  match arg with
  | some d => Except.ok d
  | none =>
    match dict with
    | some d => Except.ok d
    | none => Except.error (Err.typeError "Must specify input dimensions.")

/-- One constructed layer, as seen by the network assembler: the external
layer kernels are opaque, so we record the resolved shapes handed to them. -/
structure LayerRec where
  kind : LayerType
  input_size : Dims
  declared_output : Dims
  filter_size : Option Dims := none
  num_lags : Option Nat := none
deriving DecidableEq, Repr

/-- Deriving the conv filter dims (`'conv'` / `'biconv'` branches): with no
explicit width the filter is `layer_sizes[nn]` itself; with a width, the
input size must be a list (Python would raise `TypeError` on `len(int)`). -/
def convFilterDerive (d : Dims) (w : Option Nat) : Except Err Dims :=
  match w with
  | none => Except.ok d
  | some wd =>
    match d with
    | Dims.list l => Except.ok (Dims.list (convFilterSize l wd))
    | Dims.int _ => Except.error (Err.typeError "object of type int has no len")

/-- Deriving the filter dims for the `'convsep'` / `'convLNL'` branches. -/
def convsepFilterDerive (d : Dims) (w : Option Nat) : Except Err Dims :=
  match w with
  | none => Except.ok d
  | some wd =>
    match d with
    | Dims.list l => Except.ok (Dims.list (convsepFilterSize l wd))
    | Dims.int _ => Except.error (Err.typeError "int is not subscriptable")

/-- Deriving the filter dims for the `'conv_xy'` branch. -/
def convxyFilterDerive (d : Dims) (w : Option Nat) : Except Err Dims :=
  match w with
  | none => Except.ok d
  | some wd =>
    match d with
    | Dims.list l => Except.ok (Dims.list (convxyFilterSize l wd))
    | Dims.int _ => Except.error (Err.typeError "int is not subscriptable")

/-- The per-kind dispatch body of the `_define_network` loop.  Returns the
constructed layer record plus a flag telling the assembler to zero this
layer's `time_expand` entry (the in-place `self.time_expand[nn] = 0` of the
temporal branches).  The fetches mirror the dictionary/list accesses each
branch performs; the five broadcast lists are always well-sized so their
reads cannot fail and are not modeled as fallible. -/
def stepCore (kind : LayerType) (NP : NetParams) (nn teNN : Nat)
    (inSize outSize : Dims) : Except Err (LayerRec × Bool) :=
  match kind with
  | LayerType.normal | LayerType.sep | LayerType.readout | LayerType.add
  | LayerType.mult | LayerType.filter | LayerType.spike_history => do
    let _ ← fetchO NP.normalize_weights nn
    let _ ← fetchL NP.regs nn
    Except.ok ({ kind := kind, input_size := inSize, declared_output := outSize }, false)
  | LayerType.spkNL =>
    Except.ok ({ kind := kind, input_size := inSize, declared_output := outSize }, false)
  | LayerType.conv | LayerType.biconv => do
    let w ← fetchO NP.conv_filter_widths nn
    let fs ← convFilterDerive inSize w
    let _ ← fetchO NP.shift_spacing nn
    let _ ← fetchO NP.normalize_weights nn
    let _ ← fetchL NP.regs nn
    Except.ok ({ kind := kind, input_size := inSize, declared_output := outSize,
                 filter_size := some fs }, false)
  | LayerType.temporal | LayerType.sp_temporal => do
    let _ ← fetchO NP.dilation nn
    let _ ← fetchO NP.normalize_weights nn
    let _ ← fetchL NP.regs nn
    Except.ok ({ kind := kind, input_size := inSize, declared_output := outSize,
                 num_lags := some teNN }, true)
  | LayerType.conv_readout | LayerType.hadi_readout => do
    let _ ← fetchO NP.xy_out nn
    let _ ← fetchO NP.normalize_weights nn
    let _ ← fetchL NP.regs nn
    Except.ok ({ kind := kind, input_size := inSize, declared_output := outSize }, false)
  | LayerType.conv_xy => do
    let w ← fetchO NP.conv_filter_widths nn
    let fs ← convxyFilterDerive inSize w
    let _ ← fetchO NP.xy_out nn
    let _ ← fetchO NP.shift_spacing nn
    let _ ← fetchO NP.normalize_weights nn
    let _ ← fetchL NP.regs nn
    Except.ok ({ kind := kind, input_size := inSize, declared_output := outSize,
                 filter_size := some fs }, false)
  | LayerType.convsep | LayerType.convLNL => do
    let w ← fetchO NP.conv_filter_widths nn
    let fs ← convsepFilterDerive inSize w
    let _ ← fetchO NP.shift_spacing nn
    let _ ← fetchO NP.normalize_weights nn
    let _ ← fetchL NP.regs nn
    Except.ok ({ kind := kind, input_size := inSize, declared_output := outSize,
                 filter_size := some fs }, false)
  | LayerType.grid_shift => do
    let _ ← fetchL NP.regs nn
    Except.ok ({ kind := kind, input_size := inSize, declared_output := outSize }, false)
  | LayerType.grid_sample =>
    Except.ok ({ kind := kind, input_size := inSize, declared_output := outSize }, false)
  | _ => Except.error (Err.typeError "Layer type not defined.")

/-- Mutable state of the `_define_network` loop: the `layer_sizes` array
(index 0 is the network input dims), the accumulated layers, and the
network's `time_expand` list. -/
structure LoopState where
  sizes : List Dims
  layers : List LayerRec
  te : List Nat
deriving DecidableEq, Repr

/-- Lag-expansion of a layer's input size (lines wrapping
`layer_sizes[nn] += [self.time_expand[nn]]`). -/
def timeExpandInput (d : Dims) (te : Nat) : List Nat :=
  (match d with
   | Dims.int x => [x, 1, 1]
   | Dims.list l => l) ++ [te]

/-- One iteration of the `_define_network` loop at index `nn`: replace
`layer_sizes[nn]` by the previous layer's `output_dims` (external, via the
`outputDims` oracle) when `nn > 0`, append the lag dimension when this
layer's `time_expand` entry is positive, then dispatch on the layer kind. -/
def stepLayer (lt : List LayerType) (NP : NetParams) (outputDims : Nat → List Nat)
    (st : LoopState) (nn : Nat) : Except Err LoopState :=
  let sizes0 := if nn > 0 then st.sizes.set nn (Dims.list (outputDims (nn - 1))) else st.sizes
  let teNN := st.te.getD nn 0
  let sizes1 :=
    if teNN > 0 then
      sizes0.set nn (Dims.list (timeExpandInput (sizes0.getD nn (Dims.int 0)) teNN))
    else sizes0
  match lt[nn]? with
  | none => Except.error Err.indexError
  | some kind =>
    match stepCore kind NP nn teNN (sizes1.getD nn (Dims.int 0))
        (sizes1.getD (nn + 1) (Dims.int 0)) with
    | Except.error e => Except.error e
    | Except.ok (lrec, zero) =>
      Except.ok { sizes := sizes1, layers := st.layers ++ [lrec],
                  te := if zero then st.te.set nn 0 else st.te }

/-- The `for nn in range(self.num_layers)` loop. -/
def runLayers (lt : List LayerType) (NP : NetParams) (outputDims : Nat → List Nat) :
    List Nat → LoopState → Except Err LoopState
  | [], st => Except.ok st
  | nn :: rest, st =>
    match stepLayer lt NP outputDims st nn with
    | Except.error e => Except.error e
    | Except.ok st' => runLayers lt NP outputDims rest st'

/-- Everything `FFNetwork.__init__` computes before `_define_network` runs:
stored scope and normalized input dims, layer count, layer types, the
normalized per-layer parameters, the (possibly padded) `time_expand`, plus
the post-states of the caller's dictionary and `input_dims` argument. -/
structure PreNet where
  sc : String
  formatted : List Nat
  ls : List Dims
  n : Nat
  lt : List LayerType
  NP : NetParams
  texp : List Nat
  te0 : List Nat
  logact : Bool
  post : ParamsDict
  post_arg : Option Dims
deriving DecidableEq, Repr

/-- The validation / normalization phase of `FFNetwork.__init__` (lines up
to the `_define_network` call), including its in-place mutation of the
caller's dictionary and of a caller-supplied `input_dims` list. -/
def ffChecks (scope : Option String) (arg : Option Dims) (params : Option ParamsDict) :
    Except Err PreNet :=
  match scope with
  | none => Except.error (Err.typeError "Must specify network scope")
  | some sc =>
  match params with
  | none => Except.error (Err.typeError "Must specify parameters dictionary.")
  | some P =>
  match resolveDims arg P.input_dims with
  | Except.error e => Except.error e
  | Except.ok raw =>
  match P.layer_sizes with
  | none => Except.error (Err.typeError "Must specify layer_sizes.")
  | some ls =>
  match P.layer_types with
  | none => Except.error Err.keyError
  | some lt =>
  match broadcast P.activation_funcs "relu" ls.length "Invalid number of activation_funcs" with
  | Except.error e => Except.error e
  | Except.ok acts =>
  match broadcast P.weights_initializers "trunc_normal" ls.length "Invalid number of weights_initializer" with
  | Except.error e => Except.error e
  | Except.ok winits =>
  match broadcast P.biases_initializers "zeros" ls.length "Invalid number of biases_initializer" with
  | Except.error e => Except.error e
  | Except.ok binits =>
  match broadcast P.num_inh 0 ls.length "Invalid number of num_inh" with
  | Except.error e => Except.error e
  | Except.ok ninh =>
  match broadcast P.pos_constraints false ls.length "Invalid number of pos_con" with
  | Except.error e => Except.error e
  | Except.ok pcon =>
    let regs := P.reg_initializers.getD (List.replicate ls.length none)
    let texp := P.time_expand.getD (List.replicate ls.length 0)
    let logact := P.log_activations.getD false
    let te0 :=
      if texp.length < ls.length then texp ++ List.replicate (ls.length - texp.length) 0
      else texp
    Except.ok
      { sc := sc, formatted := formatInputDims raw, ls := ls, n := ls.length, lt := lt,
        NP := { acts := acts, winits := winits, binits := binits, regs := regs,
                ninh := ninh, pcon := pcon,
                normalize_weights := P.normalize_weights,
                conv_filter_widths := P.conv_filter_widths,
                shift_spacing := P.shift_spacing,
                dilation := P.dilation, xy_out := P.xy_out },
        texp := texp, te0 := te0, logact := logact,
        post := { P with
          input_dims := if arg.isSome then P.input_dims else P.input_dims.map padDims,
          activation_funcs := some (SoL.many acts),
          weights_initializers := some (SoL.many winits),
          biases_initializers := some (SoL.many binits),
          reg_initializers := some regs,
          num_inh := some (SoL.many ninh),
          pos_constraints := some (SoL.many pcon),
          time_expand := some texp,
          log_activations := some logact },
        post_arg := arg.map padDims }

/-- The constructed `FFNetwork` object (its external-facing attributes). -/
structure Network where
  scope : String
  input_dims : List Nat
  num_layers : Nat
  layer_types : List LayerType
  time_expand : List Nat
  time_spread : Nat
  layers : List LayerRec
  log : Bool
deriving DecidableEq, Repr

/-- Result of a successful construction: the network plus the post-states
of the caller-owned dictionary and `input_dims` argument. -/
structure InitObs where
  net : Network
  post : ParamsDict
  post_arg : Option Dims
deriving DecidableEq, Repr

def assemble (pre : PreNet) (stF : LoopState) : InitObs :=
  { net := { scope := pre.sc, input_dims := pre.formatted, num_layers := pre.n,
             layer_types := pre.lt, time_expand := stF.te,
             time_spread := pre.te0.sum, layers := stF.layers, log := pre.logact },
    post := pre.post, post_arg := pre.post_arg }

/-- `FFNetwork.__init__`: validation/normalization, then the
`_define_network` loop over `range(num_layers)` starting from
`[self.input_dims] + params['layer_sizes']`.  `outputDims` is the oracle
giving each external layer kernel's `output_dims`. -/
def ffInit (scope : Option String) (arg : Option Dims) (params : Option ParamsDict)
    (outputDims : Nat → List Nat) : Except Err InitObs :=
  match ffChecks scope arg params with
  | Except.error e => Except.error e
  | Except.ok pre =>
    match runLayers pre.lt pre.NP outputDims (List.range pre.n)
        { sizes := Dims.list pre.formatted :: pre.ls, layers := [], te := pre.te0 } with
    | Except.error e => Except.error e
    | Except.ok stF => Except.ok (assemble pre stF)

/-! ## `SideNetwork.__init__` shape derivation -/

/-- The `_conv_types` list of `SideNetwork.__init__`. -/
def convTypes : List LayerType :=
  [LayerType.conv, LayerType.convsep, LayerType.gabor, LayerType.biconv, LayerType.convLNL]

/-- Everything `SideNetwork.__init__` derives from the upstream network's
configuration before delegating to the base constructor. -/
structure SideDerived where
  input_dims : List Nat
  num_units : List Nat
  num_space : Nat
  nonconv : List Nat
  all_convolutional : Bool
  isbinocular : Bool
deriving DecidableEq, Repr

/-- The shape computation of `SideNetwork.__init__` over the upstream
network's `layer_types`, `layer_sizes` and `input_dims`.  `nonconv` is the
`nonconv_inputs` array; note that in the all-convolutional case the derived
channel count is `sum(input_layer_sizes)` after the position-dependent
binocular doubling of the first one or two entries, not `sum(nonconv)`. -/
def sideNetworkDerive (layer_types : List LayerType) (layer_sizes : List Nat)
    (in_dims : List Nat) : SideDerived :=
  let d1 := in_dims.getD 1 0
  let d2 := in_dims.getD 2 0
  let n := layer_sizes.length
  let tOf := fun nn => layer_types.getD nn (LayerType.unknown "")
  if tOf 0 ∈ convTypes then
    let nonconv := (List.range n).map fun nn =>
      if tOf nn ∈ convTypes then
        layer_sizes.getD nn 0 * d1 * d2 * (if tOf nn = LayerType.biconv then 2 else 1)
      else layer_sizes.getD nn 0
    let all_conv := (List.range n).all fun nn => decide (tOf nn ∈ convTypes)
    let isbin := (List.range n).any fun nn => decide (tOf nn = LayerType.biconv)
    if all_conv then
      let nx := if isbin then d1 / 2 else d1
      let sizes2 :=
        if isbin then
          if tOf 0 = LayerType.biconv then
            layer_sizes.set 0 (layer_sizes.getD 0 0 * 2)
          else if tOf 1 = LayerType.biconv then
            (layer_sizes.set 0 (layer_sizes.getD 0 0 * 2)).set 1 (layer_sizes.getD 1 0 * 2)
          else layer_sizes
        else layer_sizes
      { input_dims := [sizes2.sum, nx, d2], num_units := sizes2,
        num_space := nx * d2, nonconv := nonconv,
        all_convolutional := true, isbinocular := isbin }
    else
      { input_dims := [nonconv.sum, 1, 1], num_units := nonconv, num_space := 1,
        nonconv := nonconv, all_convolutional := false, isbinocular := isbin }
  else
    { input_dims := [layer_sizes.sum, 1, 1], num_units := layer_sizes, num_space := 1,
      nonconv := layer_sizes, all_convolutional := false, isbinocular := false }

/-! ## `SamplerNetwork.build_graph` input resolution -/

/-- The build input of `SamplerNetwork.build_graph`: either a single tensor
or a Python list whose elements may be `None`. -/
inductive SamplerInput (α : Type) where
  | single (t : α)
  | list (ts : List (Option α))
deriving DecidableEq, Repr

/-- Input resolution of `SamplerNetwork.build_graph` (the
`if not isinstance(inputs, list) ... elif len(inputs)==2 ... elif
len(inputs)==1 ... else raise` chain).  Returns
`(image, locations, locations_var-after)`: a concrete second element
replaces the owned `locations_var` reference thereafter. -/
def samplerResolve (inputs : SamplerInput α) (locations_var : α) :
    Except Err (Option α × α × α) :=
  match inputs with
  | SamplerInput.single t => Except.ok (some t, locations_var, locations_var)
  | SamplerInput.list ts =>
    if ts.length = 2 then
      match ts.getD 1 none with
      | none => Except.ok (ts.getD 0 none, locations_var, locations_var)
      | some l => Except.ok (ts.getD 0 none, l, l)
    else if ts.length = 1 then
      Except.ok (ts.getD 0 none, locations_var, locations_var)
    else
      Except.error (Err.typeError "Incorrect input shape in SamplerNetwork.")

/-! ## Regularization-loss aggregation -/

/-- Modelled from the spec: each external layer kernel's
`define_regularization_loss` (in `layer.py`, not part of this module)
returns a scalar graph node or a recognized zero sentinel; we model the
returned penalty as `Option Int`, with `none` the zero sentinel. -/
def regVal : Option Int → Int :=
  fun o => o.getD 0

/-- `tf.add_n`: the sum of a list of scalar nodes. -/
def add_n (ops : List (Option Int)) : Int :=
  (ops.map regVal).sum

/-- `FFNetwork.define_regularization_loss`: preallocate
`reg_ops = [None] * num_layers`, fill each slot with the layer's penalty,
then sum with `tf.add_n`. -/
def define_regularization_loss (pen : Nat → Option Int) (num_layers : Nat) : Int :=
  let reg_ops := (List.range num_layers).foldl
    (fun acc layer => acc.set layer (pen layer))
    (List.replicate num_layers (none : Option Int))
  add_n reg_ops

/-! ## Concrete instances used by witnesses and counterexamples -/

/-- A concrete input tensor for evaluating the time embedding. -/
def wInp : Nat → Nat → Int :=
  fun b f => 10 * b + f

/-- A trivial `output_dims` oracle for the external layer kernels. -/
def oracle0 : Nat → List Nat :=
  fun _ => [1, 1, 1]

/-- One temporal layer with a declared lag count of 6. -/
def pC4 : ParamsDict :=
  { layer_sizes := some [Dims.int 3], layer_types := some [LayerType.temporal],
    time_expand := some [6], dilation := some [1], normalize_weights := some [none] }

/-- Three layers but only two activation functions. -/
def pC6len : ParamsDict :=
  { layer_sizes := some [Dims.int 3, Dims.int 3, Dims.int 2],
    layer_types := some [LayerType.spkNL, LayerType.spkNL, LayerType.spkNL],
    activation_funcs := some (SoL.many ["relu", "relu"]) }

/-- One layer but a two-element `reg_initializers` list. -/
def pC6regs : ParamsDict :=
  { layer_sizes := some [Dims.int 3], layer_types := some [LayerType.spkNL],
    reg_initializers := some [none, some 3] }

/-- Two layers with a scalar `activation_funcs`. -/
def pC7 : ParamsDict :=
  { layer_sizes := some [Dims.int 3, Dims.int 3],
    layer_types := some [LayerType.spkNL, LayerType.spkNL],
    activation_funcs := some (SoL.one "relu") }

/-- One layer but a two-element `time_expand` list. -/
def pC8 : ParamsDict :=
  { layer_sizes := some [Dims.int 3], layer_types := some [LayerType.spkNL],
    time_expand := some [0, 5] }

/-- One `spkNL` layer with no `time_expand` supplied. -/
def pC8w : ParamsDict :=
  { layer_sizes := some [Dims.int 3], layer_types := some [LayerType.spkNL] }

/-- The construction result for `pC4`. -/
def obsC4 : InitObs :=
  { net := { scope := "s", input_dims := [1, 4, 1], num_layers := 1,
             layer_types := [LayerType.temporal], time_expand := [0], time_spread := 6,
             layers := [{ kind := LayerType.temporal, input_size := Dims.list [1, 4, 1, 6],
                          declared_output := Dims.int 3, filter_size := none,
                          num_lags := some 6 }],
             log := false },
    post := { input_dims := none, layer_sizes := some [Dims.int 3],
              layer_types := some [LayerType.temporal],
              activation_funcs := some (SoL.many ["relu"]),
              weights_initializers := some (SoL.many ["trunc_normal"]),
              biases_initializers := some (SoL.many ["zeros"]),
              reg_initializers := some [none], num_inh := some (SoL.many [0]),
              pos_constraints := some (SoL.many [false]), time_expand := some [6],
              log_activations := some false, normalize_weights := some [none],
              dilation := some [1] },
    post_arg := some (Dims.int 4) }

/-- The construction result for `pC8w`. -/
def obsC8w : InitObs :=
  { net := { scope := "s", input_dims := [1, 4, 1], num_layers := 1,
             layer_types := [LayerType.spkNL], time_expand := [0], time_spread := 0,
             layers := [{ kind := LayerType.spkNL, input_size := Dims.list [1, 4, 1],
                          declared_output := Dims.int 3, filter_size := none,
                          num_lags := none }],
             log := false },
    post := { input_dims := none, layer_sizes := some [Dims.int 3],
              layer_types := some [LayerType.spkNL],
              activation_funcs := some (SoL.many ["relu"]),
              weights_initializers := some (SoL.many ["trunc_normal"]),
              biases_initializers := some (SoL.many ["zeros"]),
              reg_initializers := some [none], num_inh := some (SoL.many [0]),
              pos_constraints := some (SoL.many [false]), time_expand := some [0],
              log_activations := some false },
    post_arg := some (Dims.int 4) }

/-! ## Infrastructure lemmas -/

@[simp] theorem except_bind_ok {α β : Type} (x : Except Err α) (f : α → Except Err β) (c : β) :
    (x >>= f = Except.ok c) ↔ ∃ b, x = Except.ok b ∧ f b = Except.ok c := by
  cases x <;> simp [Bind.bind, Except.bind]

theorem getD_set_self_zero (l : List Nat) (k : Nat) : (l.set k 0).getD k 0 = 0 := by
  rw [List.getD_eq_getElem?_getD]
  by_cases hk : k < l.length
  · rw [List.getElem?_set_self hk]
    rfl
  · rw [List.getElem?_eq_none]
    · rfl
    · rw [List.length_set]
      omega

theorem getD_set_zero (l : List Nat) (m k : Nat) (h : l.getD k 0 = 0) :
    (l.set m 0).getD k 0 = 0 := by
  by_cases hmk : m = k
  · subst hmk
    exact getD_set_self_zero l m
  · rw [List.getD_eq_getElem?_getD, List.getElem?_set_ne hmk]
    rw [List.getD_eq_getElem?_getD] at h
    exact h

theorem stepLayer_shape {lt : List LayerType} {NP : NetParams} {f : Nat → List Nat}
    {st : LoopState} {nn : Nat} {st' : LoopState}
    (h : stepLayer lt NP f st nn = Except.ok st') :
    st'.layers.length = st.layers.length + 1 ∧ st'.te.length = st.te.length ∧
      (st'.te = st.te ∨ st'.te = st.te.set nn 0) := by
  simp only [stepLayer] at h
  split at h
  · exact absurd h (by simp)
  · split at h
    · exact absurd h (by simp)
    · rename_i kind hkind res lrec zero hcore
      injection h with h
      subst h
      refine ⟨by simp, ?_, ?_⟩
      · by_cases hz : zero = true <;> simp [hz, List.length_set]
      · by_cases hz : zero = true
        · right; simp [hz]
        · left; simp [hz]

theorem stepCore_temporal_zero {kind : LayerType} {NP : NetParams} {nn teNN : Nat}
    {a b : Dims} {lrec : LayerRec} {zero : Bool}
    (h : stepCore kind NP nn teNN a b = Except.ok (lrec, zero))
    (ht : kind = LayerType.temporal ∨ kind = LayerType.sp_temporal) :
    zero = true := by
  rcases ht with rfl | rfl <;>
  · simp only [stepCore, except_bind_ok, Except.ok.injEq, Prod.mk.injEq] at h
    obtain ⟨_, _, _, _, _, _, _, hz⟩ := h
    exact hz.symm

theorem stepLayer_temporal_te {lt : List LayerType} {NP : NetParams} {f : Nat → List Nat}
    {st : LoopState} {nn : Nat} {st' : LoopState}
    (h : stepLayer lt NP f st nn = Except.ok st')
    (ht : lt[nn]? = some LayerType.temporal ∨ lt[nn]? = some LayerType.sp_temporal) :
    st'.te = st.te.set nn 0 := by
  simp only [stepLayer] at h
  split at h
  · exact absurd h (by simp)
  · split at h
    · exact absurd h (by simp)
    · rename_i kind hkind res lrec zero hcore
      have hk : kind = LayerType.temporal ∨ kind = LayerType.sp_temporal := by
        rcases ht with ht | ht <;> rw [hkind] at ht <;>
          [left; right] <;> exact Option.some.inj ht
      have hz := stepCore_temporal_zero hcore hk
      injection h with h
      subst h
      simp [hz]

theorem runLayers_ok_shape {lt : List LayerType} {NP : NetParams} {f : Nat → List Nat} :
    ∀ (l : List Nat) (st st' : LoopState),
      runLayers lt NP f l st = Except.ok st' →
      st'.layers.length = st.layers.length + l.length ∧ st'.te.length = st.te.length := by
  intro l
  induction l with
  | nil =>
    intro st st' h
    injection h with h
    subst h
    simp
  | cons nn rest ih =>
    intro st st' h
    simp only [runLayers] at h
    split at h
    · exact absurd h (by simp)
    · rename_i st1 hstep
      obtain ⟨h1, h2, _⟩ := stepLayer_shape hstep
      obtain ⟨h3, h4⟩ := ih st1 st' h
      constructor
      · rw [h3, h1]
        simp
        omega
      · rw [h4, h2]

theorem runLayers_te_zero_pres {lt : List LayerType} {NP : NetParams} {f : Nat → List Nat}
    {k : Nat} :
    ∀ (l : List Nat) (st st' : LoopState),
      runLayers lt NP f l st = Except.ok st' →
      st.te.getD k 0 = 0 → st'.te.getD k 0 = 0 := by
  intro l
  induction l with
  | nil =>
    intro st st' h hz
    injection h with h
    subst h
    exact hz
  | cons nn rest ih =>
    intro st st' h hz
    simp only [runLayers] at h
    split at h
    · exact absurd h (by simp)
    · rename_i st1 hstep
      refine ih st1 st' h ?_
      obtain ⟨_, _, hte | hte⟩ := stepLayer_shape hstep
      · rw [hte]; exact hz
      · rw [hte]; exact getD_set_zero _ _ _ hz

theorem runLayers_te_zero {lt : List LayerType} {NP : NetParams} {f : Nat → List Nat}
    {nn : Nat}
    (ht : lt[nn]? = some LayerType.temporal ∨ lt[nn]? = some LayerType.sp_temporal) :
    ∀ (l : List Nat) (st st' : LoopState),
      runLayers lt NP f l st = Except.ok st' → nn ∈ l →
      st'.te.getD nn 0 = 0 := by
  intro l
  induction l with
  | nil =>
    intro st st' _ hmem
    exact absurd hmem (List.not_mem_nil nn)
  | cons m rest ih =>
    intro st st' h hmem
    simp only [runLayers] at h
    split at h
    · exact absurd h (by simp)
    · rename_i st1 hstep
      by_cases hm : nn = m
      · subst hm
        have h1 : st1.te = st.te.set nn 0 := stepLayer_temporal_te hstep ht
        refine runLayers_te_zero_pres rest st1 st' h ?_
        rw [h1]
        exact getD_set_self_zero _ _
      · have : nn ∈ rest := by
          rcases List.mem_cons.mp hmem with h' | h'
          · exact absurd h' hm
          · exact h'
        exact ih st1 st' h this

theorem ffInit_ok_inv {scope : Option String} {arg : Option Dims}
    {params : Option ParamsDict} {f : Nat → List Nat} {obs : InitObs}
    (h : ffInit scope arg params f = Except.ok obs) :
    ∃ pre stF, ffChecks scope arg params = Except.ok pre ∧
      runLayers pre.lt pre.NP f (List.range pre.n)
        { sizes := Dims.list pre.formatted :: pre.ls, layers := [], te := pre.te0 } =
        Except.ok stF ∧
      obs = assemble pre stF := by
  unfold ffInit at h
  split at h
  · exact absurd h (by simp)
  · rename_i pre hpre
    split at h
    · exact absurd h (by simp)
    · rename_i stF hrun
      injection h with h
      exact ⟨pre, stF, hpre, hrun, h.symm⟩

theorem ffChecks_ok_inv {s : String} {arg : Option Dims} {P : ParamsDict} {pre : PreNet}
    (h : ffChecks (some s) arg (some P) = Except.ok pre) :
    ∃ ls lt, P.layer_sizes = some ls ∧ P.layer_types = some lt ∧
      pre.n = ls.length ∧ pre.lt = lt ∧
      pre.texp = P.time_expand.getD (List.replicate ls.length 0) ∧
      pre.te0 =
        (if pre.texp.length < ls.length then
          pre.texp ++ List.replicate (ls.length - pre.texp.length) 0
        else pre.texp) := by
  simp only [ffChecks] at h
  split at h
  · exact absurd h (by simp)
  · rename_i raw hraw
    split at h
    · exact absurd h (by simp)
    · rename_i ls hls
      split at h
      · exact absurd h (by simp)
      · rename_i lt hlt
        split at h
        · exact absurd h (by simp)
        · rename_i acts hacts
          split at h
          · exact absurd h (by simp)
          · rename_i winits hwinits
            split at h
            · exact absurd h (by simp)
            · rename_i binits hbinits
              split at h
              · exact absurd h (by simp)
              · rename_i ninh hninh
                split at h
                · exact absurd h (by simp)
                · rename_i pcon hpcon
                  injection h with h
                  subst h
                  exact ⟨ls, lt, hls, hlt, rfl, rfl, rfl, rfl⟩

/-! ## Claim C1 -/

/-- C1: for every batch size `B`, feature count `F` and lag count `L > 0`,
the time-embedding output (indexed inside its shape `(B, F·L)`) satisfies
`output[b, f*L+l] = input[b-l, f]` when `b - l ≥ 0` and `0` otherwise; and
in `build_graph` a layer whose lag count is `0` receives the running input
unchanged. -/
theorem claim_C1 (B F L : Nat) (inputs : Nat → Nat → Int) (b f l : Nat)
    (hb : b < B) (_hf : f < F) (hl : l < L) :
    (time_embed B L inputs b (f * L + l) = if l ≤ b then inputs (b - l) f else 0) ∧
    buildGraphInput 0 B inputs = inputs := by
  refine ⟨time_embed_entry B L inputs b f l hb hl, ?_⟩
  simp [buildGraphInput]

/-- Witness for C1 at `B = 3`, `F = 2`, `L = 2`, `b = 2`, `f = 1`, `l = 1`. -/
theorem claim_C1_witness :
    (2 < 3 ∧ 1 < 2 ∧ 1 < 2) ∧
    ((time_embed 3 2 wInp 2 (1 * 2 + 1) = if 1 ≤ 2 then wInp (2 - 1) 1 else 0) ∧
      buildGraphInput 0 3 wInp = wInp) :=
  ⟨⟨by decide, by decide, by decide⟩, claim_C1 3 2 2 wInp 2 1 1 (by decide) (by decide) (by decide)⟩

/-! ## Claim C3 -/

theorem convsepFilterSize_eq (ls : List Nat) (w : Nat) :
    convsepFilterSize ls w = [ls.getD 0 0, w, if ls.getD 2 0 > 1 then w else 1] := by
  unfold convsepFilterSize
  split <;> rfl

/-- C3 (amended): with an explicit filter width `w`, the `'conv'` and
`'biconv'` branches derive the filter shape
`(channels × product-of-trailing-lag-dims, w, w)` for 2D input
(`height > 1`) and `(…, w, 1)` for 1D input; the `'convsep'` and
`'convLNL'` branches use the bare channel count, with trailing lag
dimensions NOT multiplied in; with no explicit width every branch uses the
whole input size as the filter. -/
theorem claim_C3 (ls : List Nat) (w : Nat) (d : Dims) :
    (convFilterDerive (Dims.list ls) (some w) =
      Except.ok (Dims.list
        [ls.getD 0 0 * (ls.drop 3).prod, w, if ls.getD 2 0 > 1 then w else 1])) ∧
    (convsepFilterDerive (Dims.list ls) (some w) =
      Except.ok (Dims.list [ls.getD 0 0, w, if ls.getD 2 0 > 1 then w else 1])) ∧
    convFilterDerive d none = Except.ok d ∧
    convsepFilterDerive d none = Except.ok d := by
  refine ⟨?_, ?_, rfl, rfl⟩
  · simp [convFilterDerive, convFilterSize_eq]
  · simp [convsepFilterDerive, convsepFilterSize_eq]

/-- Counterexample to C3 as stated: a `'convsep'` layer whose input size
carries a trailing lag dimension (`[2, 5, 1, 3]`, e.g. channels 2,
spatial 5×1, 3 lags appended by time expansion) with filter width 2 derives
filter `[2, 2, 1]`, not `[2*3, 2, 1]`; the `'conv'` branch on the same
input does multiply the lag dimension in. -/
theorem claim_C3_counterexample :
    convsepFilterSize [2, 5, 1, 3] 2 = [2, 2, 1] ∧
    convsepFilterSize [2, 5, 1, 3] 2 ≠ [2 * 3, 2, 1] ∧
    convFilterSize [2, 5, 1, 3] 2 = [6, 2, 1] := by
  refine ⟨by decide, by decide, by decide⟩

/-! ## Claim C10 -/

/-- C10: `input_dims` normalization is asymmetric: an integer `n` is stored
as `[1, n, 1]` (spatial-x slot), while a short list is padded with trailing
`1`s, so `[n]` yields `[n, 1, 1]` — a different shape whenever `n ≠ 1`. -/
theorem claim_C10 (n : Nat) (l : List Nat) :
    formatInputDims (Dims.int n) = [1, n, 1] ∧
    formatInputDims (Dims.list [n]) = [n, 1, 1] ∧
    (l.length < 3 → formatInputDims (Dims.list l) = l ++ List.replicate (3 - l.length) 1) ∧
    (n ≠ 1 → formatInputDims (Dims.list [n]) ≠ formatInputDims (Dims.int n)) := by
  refine ⟨rfl, rfl, fun _ => rfl, fun hn h => ?_⟩
  simp only [formatInputDims] at h
  exact hn (by injection h)

/-- Witness for C10 at `n = 4`, `l = [5, 6]`. -/
theorem claim_C10_witness :
    ([5, 6].length < 3 ∧ (4 : Nat) ≠ 1) ∧
    (formatInputDims (Dims.list [5, 6]) = [5, 6] ++ List.replicate (3 - [5, 6].length) 1 ∧
      formatInputDims (Dims.list [4]) ≠ formatInputDims (Dims.int 4)) :=
  ⟨⟨by decide, by decide⟩,
    (claim_C10 4 [5, 6]).2.2.1 (by decide), (claim_C10 4 [5, 6]).2.2.2 (by decide)⟩

/-! ## Claim C9 -/

theorem set_append_length (xs ys : List (Option Int)) (v : Option Int) :
    (xs ++ ys).set xs.length v = xs ++ ys.set 0 v := by
  induction xs with
  | nil => simp
  | cons x xt ih => simp [List.set, ih]

theorem foldl_set_fill (pen : Nat → Option Int) :
    ∀ (n : Nat) (init : List (Option Int)), n ≤ init.length →
      (List.range n).foldl (fun acc i => acc.set i (pen i)) init =
        ((List.range n).map pen) ++ init.drop n := by
  intro n
  induction n with
  | zero => intro init _; simp
  | succ n ih =>
    intro init hlen
    have hn : n < init.length := by omega
    rw [List.range_succ, List.foldl_append, ih init (by omega)]
    simp only [List.foldl_cons, List.foldl_nil]
    have hset := set_append_length ((List.range n).map pen) (init.drop n) (pen n)
    rw [List.length_map, List.length_range] at hset
    rw [hset, List.drop_eq_getElem_cons hn]
    simp [List.map_append, List.set]

/-- C9: the aggregate regularization loss equals the sum over all layers of
each layer's individually computed penalty, and if every layer's penalty is
zero (including via the `none` zero sentinel) the aggregate is zero. -/
theorem claim_C9 (pen : Nat → Option Int) (n : Nat) :
    define_regularization_loss pen n =
      ((List.range n).map (fun i => regVal (pen i))).sum ∧
    ((∀ i, i < n → regVal (pen i) = 0) → define_regularization_loss pen n = 0) := by
  have hmain : define_regularization_loss pen n =
      ((List.range n).map (fun i => regVal (pen i))).sum := by
    unfold define_regularization_loss add_n
    rw [foldl_set_fill pen n (List.replicate n none) (by simp)]
    rw [List.drop_eq_nil_of_le (by simp)]
    simp [List.map_map, Function.comp_def]
  refine ⟨hmain, fun hz => ?_⟩
  rw [hmain]
  refine List.sum_eq_zero ?_
  intro x hx
  obtain ⟨i, hi, rfl⟩ := List.mem_map.mp hx
  exact hz i (List.mem_range.mp hi)

/-- Witness for C9: two layers both reporting the zero sentinel. -/
theorem claim_C9_witness :
    (∀ i, i < 2 → regVal ((fun _ => (none : Option Int)) i) = 0) ∧
    define_regularization_loss (fun _ => (none : Option Int)) 2 = 0 :=
  ⟨fun _ _ => rfl, (claim_C9 (fun _ => none) 2).2 (fun _ _ => rfl)⟩

/-! ## Claim C5 -/

/-- C5 (amended): `SamplerNetwork.build_graph` accepts a single tensor
(locations default to the owned variable), a two-element pair (a `None`
locations element falls back to the owned variable, a concrete one replaces
the owned reference thereafter), and also a single-element list (image only,
locations default to the owned variable); it fails with a `TypeError`
(`InvalidConfiguration`) only for list inputs of any other length. -/
theorem claim_C5 {α : Type} (img l v : α) (x : Option α) (ts : List (Option α)) :
    (samplerResolve (SamplerInput.single img) v = Except.ok (some img, v, v)) ∧
    (samplerResolve (SamplerInput.list [some img, none]) v = Except.ok (some img, v, v)) ∧
    (samplerResolve (SamplerInput.list [some img, some l]) v = Except.ok (some img, l, l)) ∧
    (samplerResolve (SamplerInput.list [x]) v = Except.ok (x, v, v)) ∧
    (ts.length ≠ 1 → ts.length ≠ 2 →
      samplerResolve (SamplerInput.list ts) v =
        Except.error (Err.typeError "Incorrect input shape in SamplerNetwork.")) := by
  refine ⟨rfl, rfl, rfl, rfl, fun h1 h2 => ?_⟩
  simp [samplerResolve, h1, h2]

/-- Witness for C5 with integer tensors and the empty list. -/
theorem claim_C5_witness :
    (([] : List (Option Int)).length ≠ 1 ∧ ([] : List (Option Int)).length ≠ 2) ∧
    ((samplerResolve (SamplerInput.single (1 : Int)) 2 = Except.ok (some 1, 2, 2)) ∧
      (samplerResolve (SamplerInput.list [some (1 : Int), none]) 2 = Except.ok (some 1, 2, 2)) ∧
      (samplerResolve (SamplerInput.list [some (1 : Int), some 7]) 2 = Except.ok (some 1, 7, 7)) ∧
      (samplerResolve (SamplerInput.list [some (1 : Int)]) 2 = Except.ok (some 1, 2, 2)) ∧
      (([] : List (Option Int)).length ≠ 1 → ([] : List (Option Int)).length ≠ 2 →
        samplerResolve (SamplerInput.list ([] : List (Option Int))) 2 =
          Except.error (Err.typeError "Incorrect input shape in SamplerNetwork."))) :=
  ⟨⟨by decide, by decide⟩, claim_C5 (1 : Int) 7 2 (some 1) []⟩

/-- Counterexample to C5 as stated: a single-element list is accepted, not
rejected — the image is taken from the list and locations fall back to the
owned variable. -/
theorem claim_C5_counterexample :
    samplerResolve (SamplerInput.list [some (1 : Int)]) 2 = Except.ok (some 1, 2, 2) := rfl

/-! ## Claim C2 -/

theorem getD_map_range {β : Type} (f : Nat → β) (n nn : Nat) (d : β) (h : nn < n) :
    ((List.range n).map f).getD nn d = f nn := by
  rw [List.getD_eq_getElem?_getD, List.getElem?_map, List.getElem?_range h]
  rfl

/-- C2 (amended): for a SideNetwork over an upstream network whose first
layer is convolutional-family, each conv-family upstream layer's
`nonconv_inputs` contribution is declared size × upstream spatial width ×
height, doubled for `'biconv'` regardless of position; the effective
spatial width is halved when the upstream network is all-convolutional and
any layer is `'biconv'`; but the derived `input_dims` channel count is the
sum of the declared layer sizes after the position-dependent binocular
doubling of the first one or two entries (`self.num_units`), not the sum
of those spatial contributions.  For upstream `[conv 8, biconv 4]` the
contributions sum to `8·S + 4·S·2` (`S = W·H`) while the derived channel
count is `24`. -/
theorem claim_C2 (lt : List LayerType) (sz : List Nat) (c W H : Nat)
    (h0 : lt.getD 0 (LayerType.unknown "") ∈ convTypes) :
    (∀ nn, nn < sz.length → lt.getD nn (LayerType.unknown "") ∈ convTypes →
      (sideNetworkDerive lt sz [c, W, H]).nonconv.getD nn 0 =
        sz.getD nn 0 * W * H *
          (if lt.getD nn (LayerType.unknown "") = LayerType.biconv then 2 else 1)) ∧
    ((∀ nn, nn < sz.length → lt.getD nn (LayerType.unknown "") ∈ convTypes) →
      (∃ nn, nn < sz.length ∧ lt.getD nn (LayerType.unknown "") = LayerType.biconv) →
      (sideNetworkDerive lt sz [c, W, H]).input_dims.getD 1 0 = W / 2) ∧
    ((sideNetworkDerive lt sz [c, W, H]).input_dims.getD 0 0 =
      (sideNetworkDerive lt sz [c, W, H]).num_units.sum) ∧
    ((sideNetworkDerive [LayerType.conv, LayerType.biconv] [8, 4] [c, W, H]).nonconv.sum =
      8 * (W * H) + 4 * (W * H) * 2 ∧
    (sideNetworkDerive [LayerType.conv, LayerType.biconv] [8, 4] [c, W, H]).input_dims =
      [24, W / 2, H]) := by
  refine ⟨?_, ?_, ?_, ?_, ?_⟩
  · intro nn hnn hconv
    simp only [sideNetworkDerive]
    rw [if_pos h0]
    split <;>
    · rw [getD_map_range _ _ _ _ hnn]
      rw [if_pos hconv]
      rfl
  · intro hall hbin
    have hA : ((List.range sz.length).all
        fun nn => decide (lt.getD nn (LayerType.unknown "") ∈ convTypes)) = true := by
      rw [List.all_eq_true]
      intro i hi
      exact decide_eq_true (hall i (List.mem_range.mp hi))
    have hB : ((List.range sz.length).any
        fun nn => decide (lt.getD nn (LayerType.unknown "") = LayerType.biconv)) = true := by
      rw [List.any_eq_true]
      obtain ⟨nn, hnn, hb⟩ := hbin
      exact ⟨nn, List.mem_range.mpr hnn, decide_eq_true hb⟩
    simp only [sideNetworkDerive]
    rw [if_pos h0, hA, hB]
    simp [List.getD]
  · simp only [sideNetworkDerive]
    rw [if_pos h0]
    split <;> simp [List.getD]
  · have hval : (sideNetworkDerive [LayerType.conv, LayerType.biconv] [8, 4]
        [c, W, H]).nonconv = [8 * W * H * 1, 4 * W * H * 2] := rfl
    rw [hval]
    simp only [List.sum_cons, List.sum_nil]
    ring
  · rfl

/-- Counterexample to C2 as stated, at the claim's own example
`[conv 8, biconv 4]` over `input_dims = [1, 4, 1]` (so `S = 4`): the
per-layer contributions are `[32, 32]` (sum `64 = 8·S + 4·S·2`), but the
derived `input_dims` channel count is `24`, not `64`. -/
theorem claim_C2_counterexample :
    (sideNetworkDerive [LayerType.conv, LayerType.biconv] [8, 4] [1, 4, 1]).nonconv = [32, 32] ∧
    (sideNetworkDerive [LayerType.conv, LayerType.biconv] [8, 4] [1, 4, 1]).input_dims.getD 0 0
      = 24 ∧
    (24 : Nat) ≠ 32 + 32 := by
  refine ⟨by decide, by decide, by decide⟩

/-- Witness for C2 with upstream `[conv 8, biconv 4]`, `W = 6`, `H = 1`. -/
theorem claim_C2_witness :
    ([LayerType.conv, LayerType.biconv].getD 0 (LayerType.unknown "") ∈ convTypes) ∧
    (1 < [(8 : Nat), 4].length ∧
      [LayerType.conv, LayerType.biconv].getD 1 (LayerType.unknown "") = LayerType.biconv) ∧
    ((sideNetworkDerive [LayerType.conv, LayerType.biconv] [8, 4] [5, 6, 1]).nonconv.getD 1 0 =
      [(8 : Nat), 4].getD 1 0 * 6 * 1 *
        (if [LayerType.conv, LayerType.biconv].getD 1 (LayerType.unknown "") = LayerType.biconv
         then 2 else 1)) ∧
    ((sideNetworkDerive [LayerType.conv, LayerType.biconv] [8, 4] [5, 6, 1]).input_dims.getD 1 0 =
      6 / 2) ∧
    ((sideNetworkDerive [LayerType.conv, LayerType.biconv] [8, 4] [5, 6, 1]).nonconv.sum =
      8 * (6 * 1) + 4 * (6 * 1) * 2) := by
  refine ⟨by decide, ⟨by decide, by decide⟩, ?_, ?_, ?_⟩
  · exact (claim_C2 [LayerType.conv, LayerType.biconv] [8, 4] 5 6 1 (by decide)).1 1
      (by decide) (by decide)
  · exact (claim_C2 [LayerType.conv, LayerType.biconv] [8, 4] 5 6 1 (by decide)).2.1
      (by decide) ⟨1, by decide, by decide⟩
  · exact (claim_C2 [LayerType.conv, LayerType.biconv] [8, 4] 5 6 1 (by decide)).2.2.2.1

/-! ## Claim C4 -/

/-- C4: for every network with a layer of temporal kind (`'temporal'` or
`'sp_temporal'`) and a positive declared lag count, after construction the
network's own `time_expand` entry for that layer is `0`, so `build_graph`
passes that layer's input through unchanged instead of applying the
network-level time embedding. -/
theorem claim_C4 {s : String} {arg : Option Dims} {P : ParamsDict} {f : Nat → List Nat}
    {obs : InitObs} {ls : List Dims} {lt : List LayerType} {texp : List Nat}
    (nn B : Nat) (inputs : Nat → Nat → Int)
    (hok : ffInit (some s) arg (some P) f = Except.ok obs)
    (hls : P.layer_sizes = some ls)
    (hlt : P.layer_types = some lt)
    (hnn : nn < ls.length)
    (ht : lt[nn]? = some LayerType.temporal ∨ lt[nn]? = some LayerType.sp_temporal)
    (_htexp : P.time_expand = some texp)
    (_hpos : 0 < texp.getD nn 0) :
    obs.net.time_expand.getD nn 0 = 0 ∧
    buildGraphInput (obs.net.time_expand.getD nn 0) B inputs = inputs := by
  obtain ⟨pre, stF, hpre, hrun, hobs⟩ := ffInit_ok_inv hok
  obtain ⟨ls', lt', hls', hlt', hn, hltpre, _, _⟩ := ffChecks_ok_inv hpre
  rw [hls] at hls'
  injection hls' with els
  subst els
  rw [hlt] at hlt'
  injection hlt' with elt
  subst elt
  have hnn' : nn < pre.n := by rw [hn]; exact hnn
  have ht' : pre.lt[nn]? = some LayerType.temporal ∨
      pre.lt[nn]? = some LayerType.sp_temporal := by
    rw [hltpre]; exact ht
  have hz : stF.te.getD nn 0 = 0 :=
    runLayers_te_zero ht' (List.range pre.n) _ stF hrun (List.mem_range.mpr hnn')
  subst hobs
  refine ⟨hz, ?_⟩
  show buildGraphInput (stF.te.getD nn 0) B inputs = inputs
  rw [hz]
  simp [buildGraphInput]

/-- Witness for C4: a one-layer `'temporal'` network with declared lag 6. -/
theorem claim_C4_witness :
    (ffInit (some "s") (some (Dims.int 4)) (some pC4) oracle0 = Except.ok obsC4 ∧
     pC4.layer_sizes = some [Dims.int 3] ∧
     pC4.layer_types = some [LayerType.temporal] ∧
     (0 : Nat) < [Dims.int 3].length ∧
     [LayerType.temporal][0]? = some LayerType.temporal ∧
     pC4.time_expand = some [6] ∧ 0 < [6].getD 0 0) ∧
    (obsC4.net.time_expand.getD 0 0 = 0 ∧
     buildGraphInput (obsC4.net.time_expand.getD 0 0) 3 wInp = wInp) :=
  ⟨⟨rfl, rfl, rfl, by decide, rfl, rfl, by decide⟩,
    @claim_C4 "s" (some (Dims.int 4)) pC4 oracle0 obsC4 [Dims.int 3] [LayerType.temporal]
      [6] 0 3 wInp rfl rfl rfl (by decide) (Or.inl rfl) rfl (by decide)⟩

/-! ## Claim C6 -/

/-- C6 (amended): construction fails with `TypeError` (the spec's
MissingConfiguration) whenever `scope` is absent, and fails with
`ValueError` (InvalidConfiguration) whenever one of the five broadcastable
per-layer option lists (`activation_funcs`, `weights_initializers`,
`biases_initializers`, `num_inh`, `pos_constraints`) is supplied with a
length different from the layer count; in these cases no network object is
produced.  Other supplied per-layer lists (e.g. `reg_initializers`,
`time_expand`) are not length-checked — see the counterexample. -/
theorem claim_C6 :
    (∀ (arg : Option Dims) (params : Option ParamsDict) (f : Nat → List Nat),
      ffInit none arg params f =
        Except.error (Err.typeError "Must specify network scope")) ∧
    (∀ (s : String) (d : Nat) (P : ParamsDict) (f : Nat → List Nat)
        (ls : List Dims) (lt : List LayerType) (al : List String),
      P.layer_sizes = some ls → P.layer_types = some lt →
      P.activation_funcs = some (SoL.many al) → al.length ≠ ls.length →
      ffInit (some s) (some (Dims.int d)) (some P) f =
        Except.error (Err.valueError "Invalid number of activation_funcs")) ∧
    (∀ (s : String) (d : Nat) (P : ParamsDict) (f : Nat → List Nat)
        (ls : List Dims) (lt : List LayerType) (wl : List String),
      P.layer_sizes = some ls → P.layer_types = some lt →
      P.activation_funcs = none →
      P.weights_initializers = some (SoL.many wl) → wl.length ≠ ls.length →
      ffInit (some s) (some (Dims.int d)) (some P) f =
        Except.error (Err.valueError "Invalid number of weights_initializer")) ∧
    (∀ (s : String) (d : Nat) (P : ParamsDict) (f : Nat → List Nat)
        (ls : List Dims) (lt : List LayerType) (bl : List String),
      P.layer_sizes = some ls → P.layer_types = some lt →
      P.activation_funcs = none → P.weights_initializers = none →
      P.biases_initializers = some (SoL.many bl) → bl.length ≠ ls.length →
      ffInit (some s) (some (Dims.int d)) (some P) f =
        Except.error (Err.valueError "Invalid number of biases_initializer")) ∧
    (∀ (s : String) (d : Nat) (P : ParamsDict) (f : Nat → List Nat)
        (ls : List Dims) (lt : List LayerType) (il : List Nat),
      P.layer_sizes = some ls → P.layer_types = some lt →
      P.activation_funcs = none → P.weights_initializers = none →
      P.biases_initializers = none →
      P.num_inh = some (SoL.many il) → il.length ≠ ls.length →
      ffInit (some s) (some (Dims.int d)) (some P) f =
        Except.error (Err.valueError "Invalid number of num_inh")) ∧
    (∀ (s : String) (d : Nat) (P : ParamsDict) (f : Nat → List Nat)
        (ls : List Dims) (lt : List LayerType) (pl : List Bool),
      P.layer_sizes = some ls → P.layer_types = some lt →
      P.activation_funcs = none → P.weights_initializers = none →
      P.biases_initializers = none → P.num_inh = none →
      P.pos_constraints = some (SoL.many pl) → pl.length ≠ ls.length →
      ffInit (some s) (some (Dims.int d)) (some P) f =
        Except.error (Err.valueError "Invalid number of pos_con")) := by
  refine ⟨fun arg params f => rfl, ?_, ?_, ?_, ?_, ?_⟩
  · intro s d P f ls lt al hls hlt hA hne
    simp [ffInit, ffChecks, resolveDims, broadcast, hls, hlt, hA, hne]
  · intro s d P f ls lt wl hls hlt hA hW hne
    simp [ffInit, ffChecks, resolveDims, broadcast, hls, hlt, hA, hW, hne]
  · intro s d P f ls lt bl hls hlt hA hW hB hne
    simp [ffInit, ffChecks, resolveDims, broadcast, hls, hlt, hA, hW, hB, hne]
  · intro s d P f ls lt il hls hlt hA hW hB hI hne
    simp [ffInit, ffChecks, resolveDims, broadcast, hls, hlt, hA, hW, hB, hI, hne]
  · intro s d P f ls lt pl hls hlt hA hW hB hI hP hne
    simp [ffInit, ffChecks, resolveDims, broadcast, hls, hlt, hA, hW, hB, hI, hP, hne]

/-- Witness for C6: missing scope, and `activation_funcs` of length 2 with
`layer_sizes` of length 3. -/
theorem claim_C6_witness :
    (pC6len.layer_sizes = some [Dims.int 3, Dims.int 3, Dims.int 2] ∧
     pC6len.activation_funcs = some (SoL.many ["relu", "relu"]) ∧
     ["relu", "relu"].length ≠ [Dims.int 3, Dims.int 3, Dims.int 2].length) ∧
    (ffInit none (some (Dims.int 4)) (some pC6len) oracle0 =
       Except.error (Err.typeError "Must specify network scope") ∧
     ffInit (some "s") (some (Dims.int 4)) (some pC6len) oracle0 =
       Except.error (Err.valueError "Invalid number of activation_funcs")) :=
  ⟨⟨rfl, rfl, by decide⟩,
    claim_C6.1 (some (Dims.int 4)) (some pC6len) oracle0,
    claim_C6.2.1 "s" 4 pC6len oracle0 _ _ _ rfl rfl rfl (by decide)⟩

/-- Counterexample to C6 as stated: `reg_initializers` is a supplied
per-layer option list with length 2 for a 1-layer network, yet construction
succeeds — only the five broadcastable fields are length-checked. -/
theorem claim_C6_counterexample :
    pC6regs.reg_initializers = some [none, some 3] ∧
    ([none, some (3 : Int)] : List (Option Int)).length ≠ 1 ∧
    pC6regs.layer_sizes = some [Dims.int 3] ∧
    (ffInit (some "s") (some (Dims.int 4)) (some pC6regs) oracle0).map
      (fun o => o.net.num_layers) = Except.ok 1 :=
  ⟨rfl, by decide, rfl, rfl⟩

/-! ## Claim C7 -/

theorem stepLayer_spkNL {lt : List LayerType} {NP : NetParams} {f : Nat → List Nat}
    (st : LoopState) (nn : Nat) (hm : lt[nn]? = some LayerType.spkNL) :
    ∃ st', stepLayer lt NP f st nn = Except.ok st' := by
  simp only [stepLayer, hm, stepCore]
  exact ⟨_, rfl⟩

theorem runLayers_spkNL {lt : List LayerType} {NP : NetParams} {f : Nat → List Nat} :
    ∀ (l : List Nat) (st : LoopState),
      (∀ m ∈ l, lt[m]? = some LayerType.spkNL) →
      ∃ st', runLayers lt NP f l st = Except.ok st' := by
  intro l
  induction l with
  | nil => intro st _; exact ⟨st, rfl⟩
  | cons m rest ih =>
    intro st hall
    obtain ⟨st1, h1⟩ := stepLayer_spkNL st m (hall m (List.mem_cons_self m rest))
    obtain ⟨st', h'⟩ := ih st1 (fun x hx => hall x (List.mem_cons_of_mem m hx))
    refine ⟨st', ?_⟩
    simp only [runLayers]
    rw [h1]
    exact h'

/-- C7 (amended): construction mutates the caller-owned configuration
record: the broadcastable scalar options are written back into the record
as per-layer lists, defaults (`reg_initializers`, `time_expand`,
`log_activations`) are inserted into the record, and a too-short
caller-supplied `input_dims` list is padded with `1`s in place; the
caller's `layer_sizes` and `layer_types` entries are left unchanged (the
stored `input_dims` and `time_expand` are private copies).  Stated for an
arbitrary network of `'spkNL'` layers with all scalar options supplied as
scalars and `input_dims` argument `[d]`. -/
theorem claim_C7 (s a wi bi : String) (ni : Nat) (pc : Bool) (d : Nat)
    (sizes : List Dims) (f : Nat → List Nat) :
    (ffInit (some s) (some (Dims.list [d]))
        (some { layer_sizes := some sizes,
                layer_types := some (List.replicate sizes.length LayerType.spkNL),
                activation_funcs := some (SoL.one a),
                weights_initializers := some (SoL.one wi),
                biases_initializers := some (SoL.one bi),
                num_inh := some (SoL.one ni),
                pos_constraints := some (SoL.one pc) }) f).map
        (fun o => (o.post, o.post_arg)) =
      Except.ok
        ({ layer_sizes := some sizes,
           layer_types := some (List.replicate sizes.length LayerType.spkNL),
           activation_funcs := some (SoL.many (List.replicate sizes.length a)),
           weights_initializers := some (SoL.many (List.replicate sizes.length wi)),
           biases_initializers := some (SoL.many (List.replicate sizes.length bi)),
           reg_initializers := some (List.replicate sizes.length none),
           num_inh := some (SoL.many (List.replicate sizes.length ni)),
           pos_constraints := some (SoL.many (List.replicate sizes.length pc)),
           time_expand := some (List.replicate sizes.length 0),
           log_activations := some false },
         some (Dims.list [d, 1, 1])) := by
  have hmem : ∀ m ∈ List.range sizes.length,
      (List.replicate sizes.length LayerType.spkNL)[m]? = some LayerType.spkNL := by
    intro m hm
    rw [List.getElem?_replicate, if_pos (List.mem_range.mp hm)]
  simp only [ffInit, ffChecks, resolveDims, broadcast, formatInputDims]
  split
  · rename_i e herr
    obtain ⟨stF, hrun⟩ := runLayers_spkNL _ _ hmem
    rw [hrun] at herr
    exact absurd herr (by simp)
  · rfl

/-- Counterexample to C7 as stated: after constructing over `pC7` (scalar
`activation_funcs`, `input_dims` argument `[4]`), the caller's record holds
the broadcast list `["relu", "relu"]` instead of the scalar, and the
caller's `input_dims` list has been padded to `[4, 1, 1]` in place. -/
theorem claim_C7_counterexample :
    (ffInit (some "s") (some (Dims.list [4])) (some pC7) oracle0).map
        (fun o => (o.post.activation_funcs, o.post_arg)) =
      Except.ok (some (SoL.many ["relu", "relu"]), some (Dims.list [4, 1, 1])) ∧
    pC7.activation_funcs = some (SoL.one "relu") ∧
    some (SoL.one "relu") ≠ some (SoL.many ["relu", "relu"]) ∧
    Dims.list [4] ≠ Dims.list [4, 1, 1] :=
  ⟨rfl, rfl, by decide, by decide⟩

/-! ## Claim C8 -/

/-- C8 (amended): for every successfully constructed network whose
`layer_types` list has exactly the layer count and whose supplied
`time_expand` list (when present) is no longer than the layer count, the
invariant `len(layers) == len(layer_types) == len(time_expand)` holds (a
shorter `time_expand` is padded with zeros); a longer supplied
`time_expand` is kept untruncated and breaks the invariant — see the
counterexample. -/
theorem claim_C8 {s : String} {arg : Option Dims} {P : ParamsDict} {f : Nat → List Nat}
    {obs : InitObs} {ls : List Dims} {lt : List LayerType}
    (hok : ffInit (some s) arg (some P) f = Except.ok obs)
    (hls : P.layer_sizes = some ls)
    (hlt : P.layer_types = some lt)
    (hltlen : lt.length = ls.length)
    (hte : ∀ t, P.time_expand = some t → t.length ≤ ls.length) :
    obs.net.layers.length = obs.net.layer_types.length ∧
    obs.net.layer_types.length = obs.net.time_expand.length ∧
    obs.net.layers.length = obs.net.num_layers := by
  obtain ⟨pre, stF, hpre, hrun, hobs⟩ := ffInit_ok_inv hok
  obtain ⟨ls', lt', hls', hlt', hn, hltpre, htexp', hte0⟩ := ffChecks_ok_inv hpre
  rw [hls] at hls'
  injection hls' with els
  subst els
  rw [hlt] at hlt'
  injection hlt' with elt
  subst elt
  obtain ⟨hlen1, hlen2⟩ := runLayers_ok_shape (List.range pre.n) _ stF hrun
  have hteln : pre.texp.length ≤ ls.length := by
    cases hPte : P.time_expand with
    | none =>
      rw [hPte] at htexp'
      simp only [Option.getD_none] at htexp'
      rw [htexp']
      simp
    | some t =>
      rw [hPte] at htexp'
      simp only [Option.getD_some] at htexp'
      rw [htexp']
      exact hte t hPte
  have hte0len : pre.te0.length = ls.length := by
    rw [hte0]
    split
    · rename_i hlt'
      simp only [List.length_append, List.length_replicate]
      omega
    · rename_i hge
      omega
  subst hobs
  have hnetlayers : (assemble pre stF).net.layers.length = pre.n := by
    show stF.layers.length = pre.n
    rw [hlen1]
    simp
  have hnette : (assemble pre stF).net.time_expand.length = ls.length := by
    show stF.te.length = ls.length
    rw [hlen2]
    exact hte0len
  refine ⟨?_, ?_, ?_⟩
  · rw [hnetlayers]
    show pre.n = pre.lt.length
    rw [hltpre, hn, hltlen]
  · show pre.lt.length = (assemble pre stF).net.time_expand.length
    rw [hnette, hltpre, hltlen]
  · rw [hnetlayers]
    rfl

/-- Witness for C8: a one-layer network with no supplied `time_expand`. -/
theorem claim_C8_witness :
    (ffInit (some "s") (some (Dims.int 4)) (some pC8w) oracle0 = Except.ok obsC8w ∧
     pC8w.layer_sizes = some [Dims.int 3] ∧
     pC8w.layer_types = some [LayerType.spkNL] ∧
     [LayerType.spkNL].length = [Dims.int 3].length ∧
     (∀ t, pC8w.time_expand = some t → t.length ≤ [Dims.int 3].length)) ∧
    (obsC8w.net.layers.length = obsC8w.net.layer_types.length ∧
     obsC8w.net.layer_types.length = obsC8w.net.time_expand.length ∧
     obsC8w.net.layers.length = obsC8w.net.num_layers) :=
  ⟨⟨rfl, rfl, rfl, rfl, fun _ h => nomatch h⟩,
    @claim_C8 "s" (some (Dims.int 4)) pC8w oracle0 obsC8w [Dims.int 3] [LayerType.spkNL]
      rfl rfl rfl rfl (fun _ h => nomatch h)⟩

/-- Counterexample to C8 as stated: supplying `time_expand = [0, 5]` to a
one-layer network succeeds, but the stored `time_expand` keeps both
entries, so `len(layers) = 1 ≠ 2 = len(time_expand)`. -/
theorem claim_C8_counterexample :
    (ffInit (some "s") (some (Dims.int 4)) (some pC8) oracle0).map
        (fun o => (o.net.layers.length, o.net.layer_types.length, o.net.time_expand)) =
      Except.ok (1, 1, [0, 5]) ∧
    (1 : Nat) ≠ ([0, 5] : List Nat).length :=
  ⟨rfl, by decide⟩

end NDN3
